import Mathlib

/-!
Shallow embedding of the client-side analysis workflow of
`src/frontend/app/page.tsx` (the Semantix AI single-page client):
the request lifecycle of `analyzeProduct`, the tab selection
`setActiveTab`, and the score-to-visual mappings of the `Speedometer`
component (`getScoreColor`, the inline label and stroke conditionals).
-/

namespace Semantix

/-- The three tab values of `useState<'facts' | 'scenarios' | 'faq'>` (page.tsx line 96). -/
inductive ViewTab where
  | facts
  | scenarios
  | faq
deriving DecidableEq, Repr

/-- A JSON value, as produced by `response.json()`.  The component stores the
parsed body in `analysisResult` without any validation, so the stored value is
modelled as raw JSON rather than as a typed record.  Numbers are modelled as
integers (every score the spec and claims mention is integral). -/
inductive Json where
  | null
  | bool (b : Bool)
  | num (n : Int)
  | str (s : String)
  | arr (elems : List Json)
  | obj (fields : List (String × Json))
deriving Repr

/-- The component state of `Home` (page.tsx lines 93–96): the four `useState`
hooks `originalText`, `analysisResult`, `isLoading`, `activeTab`. -/
structure AppState where
  originalText : String
  analysisResult : Option Json
  isLoading : Bool
  activeTab : ViewTab
deriving Repr

/-- The possible outcomes of the `fetch` in `analyzeProduct` (page.tsx
lines 104–116): a network/transport error (the `fetch` promise rejects), or an
HTTP response carrying its `ok` flag and the outcome of `response.json()`
(`none` when the body is not parseable JSON, in which case `response.json()`
rejects and control reaches the `catch` block). -/
inductive FetchOutcome where
  | transportError
  | httpResponse (ok : Bool) (body : Option Json)
deriving Repr

/-- The outcomes the spec's error taxonomy (§7) calls failures:
TransportFailure, ServiceError (non-2xx `ok = false`), and a 2xx body that
fails JSON parsing. -/
def FetchOutcome.isFailure : FetchOutcome → Bool
  | .transportError => true
  | .httpResponse ok body => !ok || body.isNone

/-- The guard `!originalText.trim()` (page.tsx line 100): JavaScript `trim`
removes leading and trailing whitespace, so the trimmed string is empty
exactly when every character of the string is whitespace. -/
def isBlank (s : String) : Bool := s.data.all Char.isWhitespace

/-- The synchronous prefix of `analyzeProduct` (page.tsx lines 99–110): the
blank-input guard, then `setIsLoading(true)` and the dispatch of the `fetch`.
Returns the state at the moment the request is in flight together with a flag
recording whether an outbound call was dispatched.  Note that the guard tests
only `originalText`; `isLoading` is not consulted. -/
def submitStart (s : AppState) : AppState × Bool :=
  if isBlank s.originalText then (s, false)
  else ({ s with isLoading := true }, true)

/-- The continuation of `analyzeProduct` once the `fetch` settles (page.tsx
lines 112–123): a non-`ok` response throws, a parse failure throws, the
`catch` block only logs to the console, the `finally` block runs
`setIsLoading(false)`, and on success the raw parsed body is stored via
`setAnalysisResult(data)` with no validation. -/
def submitFinish (s : AppState) (o : FetchOutcome) : AppState :=
  match o with
  | .transportError => { s with isLoading := false }
  | .httpResponse ok body =>
      if ok then
        match body with
        | some data => { s with analysisResult := some data, isLoading := false }
        | none => { s with isLoading := false }
      else { s with isLoading := false }

/-- One complete run of `analyzeProduct` on state `s` with fetch outcome `o`:
the final component state, paired with whether an outbound call was
dispatched. -/
def analyzeProduct (s : AppState) (o : FetchOutcome) : AppState × Bool :=
  let r := submitStart s
  if r.2 then (submitFinish r.1 o, true) else r

/-- The tab-button click handler `() => setActiveTab(tab.id)` (page.tsx
line 231): it sets `activeTab` and touches nothing else. -/
def selectTab (s : AppState) (t : ViewTab) : AppState := { s with activeTab := t }

/-- The spec's request-lifecycle enumeration (§3). -/
inductive RequestPhase where
  | idle
  | in_flight
  | succeeded
  | failed
deriving DecidableEq, Repr

/-- The spec's RequestPhase (§3) read off the component state.  The code has
no phase variable: the render tree branches on `isLoading` (the button) and on
`analysisResult` being present (the result panel), which is exactly
`in_flight` while loading, `succeeded` when a result is stored, and `idle`
otherwise.  No component state maps to `failed`; the claims that speak of a
failed phase are stated through this map. -/
def specPhase (s : AppState) : RequestPhase :=
  if s.isLoading then .in_flight
  else
    match s.analysisResult with
    | some _ => .succeeded
    | none => .idle

/-- Looks a key up in a JSON object, `none` on any other JSON value. -/
def Json.getField (j : Json) (k : String) : Option Json :=
  match j with
  | .obj fields => fields.lookup k
  | _ => none

/-- True when the JSON value is a string. -/
def Json.isStr : Json → Bool
  | .str _ => true
  | _ => false

/-- The field `k` exists and satisfies `p`. -/
def fieldSat (j : Json) (k : String) (p : Json → Bool) : Bool :=
  match j.getField k with
  | some v => p v
  | none => false

/-- The JSON value is an array all of whose elements satisfy `p`. -/
def isArrOf (p : Json → Bool) : Json → Bool
  | .arr xs => xs.all p
  | _ => false

/-- The JSON value is a number in the spec's score range [0,100]. -/
def isScoreInRange : Json → Bool
  | .num n => decide (0 ≤ n) && decide (n ≤ 100)
  | _ => false

/-- Conformance of one entry to the `FactItem` interface (page.tsx lines 7–10). -/
def isFactItem (j : Json) : Bool :=
  fieldSat j "key" Json.isStr && fieldSat j "value" Json.isStr

/-- Conformance of one entry to the `ScenarioItem` interface (page.tsx lines 12–16). -/
def isScenarioItem (j : Json) : Bool :=
  fieldSat j "scenario" Json.isStr && fieldSat j "pain_point" Json.isStr &&
    fieldSat j "solution" Json.isStr

/-- Conformance of one entry to the `FAQItem` interface (page.tsx lines 18–21). -/
def isFaqItem (j : Json) : Bool :=
  fieldSat j "question" Json.isStr && fieldSat j "answer" Json.isStr

/-- The wire shape the spec requires of a 2xx body: the `GCOAnalysisResponse`
TypeScript interface (page.tsx lines 29–34, erased at runtime and never
checked by the code) together with the spec's §7 score-range requirement
`gco_score ∈ [0,100]`.  This is the spec-side conformance predicate that the
schema-validation claim compares against what `analyzeProduct` actually
stores. -/
def specConformsToAnalysisResult (j : Json) : Bool :=
  fieldSat j "gco_score" isScoreInRange &&
  fieldSat j "analysis_summary" Json.isStr &&
  fieldSat j "missing_elements" (isArrOf Json.isStr) &&
  fieldSat j "optimized_structure" (fun os =>
    fieldSat os "fact_table" (isArrOf isFactItem) &&
    fieldSat os "scenarios" (isArrOf isScenarioItem) &&
    fieldSat os "faq" (isArrOf isFaqItem))

/-- `getScoreColor` of the `Speedometer` component (page.tsx lines 39–43). -/
def getScoreColor (score : Int) : String :=
  if score ≥ 80 then "text-green-400"
  else if score ≥ 60 then "text-yellow-400"
  else "text-red-400"

/-- The inline label conditional of the `Speedometer` component (page.tsx
lines 82–84). -/
def scoreLabel (score : Int) : String :=
  if score ≥ 80 then "Excellent AI Search Optimization"
  else if score ≥ 60 then "Good AI Search Optimization"
  else "Needs Improvement"

/-- The inline stroke-color conditional of the progress ring (page.tsx
line 66). -/
def progressStroke (score : Int) : String :=
  if score ≥ 80 then "#10b981"
  else if score ≥ 60 then "#f59e0b"
  else "#ef4444"

/-- The pieces of the rendered `Speedometer` that depend on the score. -/
structure SpeedometerView where
  stroke : String
  scoreClass : String
  scoreText : String
  label : String
deriving Repr

/-- The `Speedometer` component (page.tsx lines 37–89): stroke color, score
text color class, the displayed score text (`{score}`, the raw prop with no
clamping or validation), and the textual label. -/
def speedometer (score : Int) : SpeedometerView :=
  { stroke := progressStroke score
    scoreClass := getScoreColor score
    scoreText := toString score
    label := scoreLabel score }

/-- A well-formed analysis body, used as a concrete previous success. -/
def goodBody : Json :=
  .obj [("gco_score", .num 85),
        ("analysis_summary", .str "Strong listing"),
        ("missing_elements", .arr []),
        ("optimized_structure",
          .obj [("fact_table", .arr []), ("scenarios", .arr []), ("faq", .arr [])])]

/-- The spec's malformed-body scenario: `gco_score` is the string
`"not-a-number"` rather than a number. -/
def badBody : Json :=
  .obj [("gco_score", .str "not-a-number"),
        ("analysis_summary", .str "s"),
        ("missing_elements", .arr []),
        ("optimized_structure",
          .obj [("fact_table", .arr []), ("scenarios", .arr []), ("faq", .arr [])])]

/-- An idle pre-submit state: text entered, no result yet, not loading. -/
def stateIdle : AppState :=
  { originalText := "Wireless noise-cancelling headphones"
    analysisResult := none
    isLoading := false
    activeTab := ViewTab.facts }

/-- A state holding a previous successful result, with new text entered. -/
def statePrevSuccess : AppState :=
  { originalText := "new description"
    analysisResult := some goodBody
    isLoading := false
    activeTab := ViewTab.facts }

/-- A state whose active tab is `faq` (the user switched tabs), about to
submit a new analysis. -/
def stateOnFaqTab : AppState :=
  { originalText := "another product"
    analysisResult := some goodBody
    isLoading := false
    activeTab := ViewTab.faq }

/-- A state with a request already in flight and non-blank text. -/
def stateInFlight : AppState :=
  { originalText := "some product"
    analysisResult := none
    isLoading := true
    activeTab := ViewTab.facts }

/-! ## Helper lemmas -/

/-- The derived phase never takes the value `failed`: the component state has
no representation of a failed request. -/
theorem specPhase_ne_failed (s : AppState) : specPhase s ≠ RequestPhase.failed := by
  unfold specPhase
  split
  · exact fun h => nomatch h
  · split <;> exact fun h => nomatch h

/-- With non-blank text, a run of `analyzeProduct` is the in-flight state fed
through `submitFinish`, and a call is dispatched. -/
theorem analyzeProduct_nonblank (s : AppState) (o : FetchOutcome)
    (hb : isBlank s.originalText = false) :
    analyzeProduct s o = (submitFinish { s with isLoading := true } o, true) := by
  simp [analyzeProduct, submitStart, hb]

/-- On every failure outcome, `submitFinish` only clears the loading flag:
the catch block stores nothing and clears nothing. -/
theorem submitFinish_failure (s : AppState) (o : FetchOutcome)
    (hf : o.isFailure = true) :
    submitFinish s o = { s with isLoading := false } := by
  cases o with
  | transportError => rfl
  | httpResponse ok body =>
      cases ok with
      | false => rfl
      | true =>
          cases body with
          | some j => simp [FetchOutcome.isFailure] at hf
          | none => rfl

/-! ## Claim theorems -/

/-- Claim C6 (confirmed): for input text that is empty or whitespace-only
after trimming, submitting is a no-op: the entire state (phase, stored
result, active tab) is unchanged, no outbound call is dispatched, and no
error is surfaced (the state holds no error in any case). -/
theorem submit_blank_noop (s : AppState) (o : FetchOutcome)
    (hb : isBlank s.originalText = true) :
    analyzeProduct s o = (s, false) ∧ (submitStart s).2 = false := by
  constructor <;> simp [analyzeProduct, submitStart, hb]

/-- Witness for C6 at the whitespace-only input `"   "`. -/
theorem submit_blank_noop_witness :
    analyzeProduct ⟨"   ", none, false, ViewTab.facts⟩ FetchOutcome.transportError
        = (⟨"   ", none, false, ViewTab.facts⟩, false) ∧
      (submitStart ⟨"   ", none, false, ViewTab.facts⟩).2 = false :=
  submit_blank_noop _ _ rfl

/-- Claim C7 (confirmed): on integer scores in [0,100], `getScoreColor`
returns the high (green) class exactly when the score is at least 80, the
medium (yellow) class exactly when it is in [60,80), and the low (red) class
exactly when it is below 60. -/
theorem getScoreColor_bands (s : Int) (h0 : 0 ≤ s) (h1 : s ≤ 100) :
    (getScoreColor s = "text-green-400" ↔ 80 ≤ s) ∧
    (getScoreColor s = "text-yellow-400" ↔ (60 ≤ s ∧ s < 80)) ∧
    (getScoreColor s = "text-red-400" ↔ s < 60) := by
  unfold getScoreColor
  split_ifs with hA hB <;> (simp_all; try omega)

/-- Witness for C7 at the boundary scores 85, 60 and 59. -/
theorem getScoreColor_bands_witness :
    getScoreColor 85 = "text-green-400" ∧
    getScoreColor 60 = "text-yellow-400" ∧
    getScoreColor 59 = "text-red-400" :=
  ⟨(getScoreColor_bands 85 (by decide) (by decide)).1.mpr (by decide),
   (getScoreColor_bands 60 (by decide) (by decide)).2.1.mpr (by decide),
   (getScoreColor_bands 59 (by decide) (by decide)).2.2.mpr (by decide)⟩

/-- Claim C8 (confirmed): on integer scores in [0,100], `getScoreColor` and
the label conditional agree on band membership: green iff the Excellent
label, yellow iff the Good label, red iff Needs Improvement — the two
conditionals use the same thresholds. -/
theorem color_label_agree (s : Int) (_h0 : 0 ≤ s) (_h1 : s ≤ 100) :
    (getScoreColor s = "text-green-400" ↔
        scoreLabel s = "Excellent AI Search Optimization") ∧
    (getScoreColor s = "text-yellow-400" ↔
        scoreLabel s = "Good AI Search Optimization") ∧
    (getScoreColor s = "text-red-400" ↔ scoreLabel s = "Needs Improvement") := by
  unfold getScoreColor scoreLabel
  split_ifs <;> simp_all

/-- Witness for C8 at score 85. -/
theorem color_label_agree_witness :
    scoreLabel 85 = "Excellent AI Search Optimization" :=
  (color_label_agree 85 (by decide) (by decide)).1.mp (by decide)

/-- Claim C9 (confirmed): selecting a tab changes only `activeTab`: the
stored result, the loading flag, the input text and the derived phase are
untouched, the call is total, and re-selecting the already-active tab leaves
the state literally unchanged. -/
theorem selectTab_frame (s : AppState) (t : ViewTab) :
    (selectTab s t).analysisResult = s.analysisResult ∧
    (selectTab s t).isLoading = s.isLoading ∧
    (selectTab s t).originalText = s.originalText ∧
    specPhase (selectTab s t) = specPhase s ∧
    (selectTab s t).activeTab = t ∧
    (s.activeTab = t → selectTab s t = s) := by
  refine ⟨rfl, rfl, rfl, rfl, rfl, ?_⟩
  intro h
  cases s
  simp_all [selectTab]

/-- Witness for C9: selecting `facts` when `facts` is already active leaves
the state unchanged. -/
theorem selectTab_frame_witness :
    specPhase (selectTab stateIdle ViewTab.facts) = specPhase stateIdle ∧
    selectTab stateIdle ViewTab.facts = stateIdle :=
  ⟨(selectTab_frame stateIdle ViewTab.facts).2.2.2.1,
   (selectTab_frame stateIdle ViewTab.facts).2.2.2.2.2 rfl⟩

/-- Claim C10 (confirmed): the score-to-visual mappings are total over all
integers, with no range validation or clamping: every score below 60
(negative included) renders red / Needs Improvement / stroke `#ef4444`,
every score of 80 or more (above 100 included) renders green / the
Excellent label / stroke `#10b981`, and the displayed text is the raw
score. -/
theorem score_mapping_total (s : Int) :
    (s < 60 →
      (speedometer s).scoreClass = "text-red-400" ∧
      (speedometer s).label = "Needs Improvement" ∧
      (speedometer s).stroke = "#ef4444") ∧
    (80 ≤ s →
      (speedometer s).scoreClass = "text-green-400" ∧
      (speedometer s).label = "Excellent AI Search Optimization" ∧
      (speedometer s).stroke = "#10b981") ∧
    (speedometer s).scoreText = toString s := by
  refine ⟨fun h => ?_, fun h => ?_, rfl⟩ <;>
    · unfold speedometer getScoreColor scoreLabel progressStroke
      split_ifs <;> first | exact ⟨rfl, rfl, rfl⟩ | (exfalso; omega)

/-- Witness for C10 at the out-of-range scores -5 and 150. -/
theorem score_mapping_total_witness :
    ((speedometer (-5)).scoreClass = "text-red-400" ∧
     (speedometer (-5)).label = "Needs Improvement" ∧
     (speedometer (-5)).stroke = "#ef4444") ∧
    ((speedometer 150).scoreClass = "text-green-400" ∧
     (speedometer 150).label = "Excellent AI Search Optimization" ∧
     (speedometer 150).stroke = "#10b981") :=
  ⟨(score_mapping_total (-5)).1 (by decide),
   (score_mapping_total 150).2.1 (by decide)⟩

/-- Counterexample to claim C1 as stated: starting from a state holding a
previous successful result, a transport failure of a new request leaves the
stale result stored as current (not cleared to null) and the derived phase is
not `failed`. -/
theorem failure_keeps_stale_result_cx :
    (analyzeProduct statePrevSuccess FetchOutcome.transportError).1.analysisResult ≠ none ∧
    specPhase (analyzeProduct statePrevSuccess FetchOutcome.transportError).1 ≠
      RequestPhase.failed := by
  have h1 : (analyzeProduct statePrevSuccess FetchOutcome.transportError).1.analysisResult
      = some goodBody := rfl
  have h2 : specPhase (analyzeProduct statePrevSuccess FetchOutcome.transportError).1
      = RequestPhase.succeeded := rfl
  rw [h1, h2]
  exact ⟨fun h => Option.noConfusion h, fun h => nomatch h⟩

/-- Claim C1 (corrected): on every failure path the loading flag is cleared,
but the previously stored `AnalysisResult` is left untouched — the catch
block does not clear it — and no state maps to a distinct failed phase, so a
stale result from a previous success remains displayed as current. -/
theorem analyzeProduct_failure_keeps_result (s : AppState) (o : FetchOutcome)
    (hb : isBlank s.originalText = false) (hf : o.isFailure = true) :
    (analyzeProduct s o).1 = { s with isLoading := false } ∧
    (analyzeProduct s o).1.analysisResult = s.analysisResult ∧
    specPhase (analyzeProduct s o).1 ≠ RequestPhase.failed := by
  rw [analyzeProduct_nonblank s o hb, submitFinish_failure _ _ hf]
  exact ⟨rfl, rfl, specPhase_ne_failed _⟩

/-- Witness for C1 (corrected) at a concrete prior-success state and a
transport error. -/
theorem analyzeProduct_failure_keeps_result_witness :
    (analyzeProduct statePrevSuccess FetchOutcome.transportError).1
        = { statePrevSuccess with isLoading := false } ∧
    (analyzeProduct statePrevSuccess FetchOutcome.transportError).1.analysisResult
        = statePrevSuccess.analysisResult ∧
    specPhase (analyzeProduct statePrevSuccess FetchOutcome.transportError).1 ≠
      RequestPhase.failed :=
  analyzeProduct_failure_keeps_result statePrevSuccess FetchOutcome.transportError rfl rfl

/-- Counterexample to claim C2 as stated: the spec's malformed body (with
`gco_score` the string `"not-a-number"`) does not conform to the
`AnalysisResult` shape, yet a 2xx response carrying it is stored verbatim
and the derived phase becomes `succeeded`, not `failed`. -/
theorem malformed_body_stored_cx :
    specConformsToAnalysisResult badBody = false ∧
    (analyzeProduct stateIdle
        (FetchOutcome.httpResponse true (some badBody))).1.analysisResult = some badBody ∧
    specPhase (analyzeProduct stateIdle
        (FetchOutcome.httpResponse true (some badBody))).1 = RequestPhase.succeeded :=
  ⟨rfl, rfl, rfl⟩

/-- Claim C2 (corrected): no schema validation occurs — any 2xx body that
parses as JSON, conforming to the `AnalysisResult` shape or not, is stored
verbatim and the derived phase becomes `succeeded`; only a body that fails
JSON parsing takes the failure path, which leaves the stored result
unchanged. -/
theorem success_stores_body_unvalidated (s : AppState) (j : Json)
    (hb : isBlank s.originalText = false) :
    (analyzeProduct s (FetchOutcome.httpResponse true (some j))).1.analysisResult = some j ∧
    specPhase (analyzeProduct s (FetchOutcome.httpResponse true (some j))).1
        = RequestPhase.succeeded ∧
    (analyzeProduct s (FetchOutcome.httpResponse true none)).1.analysisResult
        = s.analysisResult := by
  rw [analyzeProduct_nonblank s _ hb, analyzeProduct_nonblank s _ hb]
  exact ⟨rfl, rfl, rfl⟩

/-- Witness for C2 (corrected) at the idle state and the well-formed body. -/
theorem success_stores_body_unvalidated_witness :
    (analyzeProduct stateIdle
        (FetchOutcome.httpResponse true (some goodBody))).1.analysisResult = some goodBody ∧
    specPhase (analyzeProduct stateIdle
        (FetchOutcome.httpResponse true (some goodBody))).1 = RequestPhase.succeeded ∧
    (analyzeProduct stateIdle
        (FetchOutcome.httpResponse true none)).1.analysisResult = stateIdle.analysisResult :=
  success_stores_body_unvalidated stateIdle goodBody rfl

/-- Counterexample to claim C3 as stated: submitting from a state whose
active tab is `faq` and completing successfully stores the new result but
leaves the active tab on `faq` — it is not reset to `facts`. -/
theorem success_does_not_reset_tab_cx :
    (analyzeProduct stateOnFaqTab
        (FetchOutcome.httpResponse true (some goodBody))).1.analysisResult = some goodBody ∧
    (analyzeProduct stateOnFaqTab
        (FetchOutcome.httpResponse true (some goodBody))).1.activeTab ≠ ViewTab.facts := by
  refine ⟨rfl, ?_⟩
  have h : (analyzeProduct stateOnFaqTab
      (FetchOutcome.httpResponse true (some goodBody))).1.activeTab = ViewTab.faq := rfl
  rw [h]
  exact fun hc => nomatch hc

/-- Claim C3 (corrected): `analyzeProduct` never touches the active tab — on
every outcome, successful completion included, the tab that was active before
the submission stays active; there is no reset to `facts`. -/
theorem analyzeProduct_preserves_tab (s : AppState) (o : FetchOutcome) :
    (analyzeProduct s o).1.activeTab = s.activeTab := by
  cases hb : isBlank s.originalText with
  | true => simp [analyzeProduct, submitStart, hb]
  | false =>
      cases o with
      | transportError => simp [analyzeProduct, submitStart, submitFinish, hb]
      | httpResponse ok body =>
          cases ok <;> cases body <;>
            simp [analyzeProduct, submitStart, submitFinish, hb]

/-- Counterexample to claim C4 as stated: with a request already in flight
and non-blank text, a second call is not ignored — it dispatches a second
outbound call. -/
theorem submit_while_inflight_dispatches_cx :
    stateInFlight.isLoading = true ∧ (submitStart stateInFlight).2 = true :=
  ⟨rfl, rfl⟩

/-- Claim C4 (corrected): the controller has no in-flight guard — its only
guard is the blank-text check (the disabled button is UI-only).  A call while
a request is in flight with non-blank text dispatches another outbound call;
its only synchronous state effect is setting the already-true loading flag,
so the pre-dispatch state is unchanged. -/
theorem submit_while_inflight_dispatches (s : AppState)
    (hl : s.isLoading = true) (hb : isBlank s.originalText = false) :
    (submitStart s).2 = true ∧ (submitStart s).1 = s := by
  cases s
  simp_all [submitStart]

/-- Witness for C4 (corrected) at the concrete in-flight state. -/
theorem submit_while_inflight_dispatches_witness :
    (submitStart stateInFlight).2 = true ∧ (submitStart stateInFlight).1 = stateInFlight :=
  submit_while_inflight_dispatches stateInFlight rfl rfl

/-- Counterexample to claim C5 as stated: a transport failure starting from
the idle pre-submit state returns the component to exactly that state — no
diagnostic error is recorded anywhere in component state, so the failed
outcome is indistinguishable from never having analyzed. -/
theorem failure_state_equals_idle_cx :
    analyzeProduct stateIdle FetchOutcome.transportError = (stateIdle, true) := rfl

/-- Claim C5 (corrected): the catch block only logs to the console; no
diagnostic error is recorded in component state.  After any failed request
from a non-loading state the component state equals the pre-submit state, so
a failure from idle is internally indistinguishable from idle. -/
theorem failure_leaves_no_trace (s : AppState) (o : FetchOutcome)
    (hb : isBlank s.originalText = false) (hf : o.isFailure = true)
    (hl : s.isLoading = false) :
    (analyzeProduct s o).1 = s := by
  rw [analyzeProduct_nonblank s o hb, submitFinish_failure _ _ hf]
  cases s
  simp_all

/-- Witness for C5 (corrected) at the idle state and a transport error. -/
theorem failure_leaves_no_trace_witness :
    (analyzeProduct stateIdle FetchOutcome.transportError).1 = stateIdle :=
  failure_leaves_no_trace stateIdle FetchOutcome.transportError rfl rfl rfl

end Semantix
